import Mathlib

/-!
Shallow embedding of the elk-llm repository (three Python scripts):
  * gemma3-elastic-agent/main.py : ElasticsearchMCPClient URL validation,
    normalization and the HTTPS-to-HTTP session retry, Gemma3ElasticAgent.query
  * main.py : ElasticsearchTool._run search-request construction, FastAPI
    handlers for GET / and POST /query
  * mcp/testingmcp.py : the JSON-RPC payload posted to the MCP route

Pure data and string manipulation is translated directly; network / subprocess
effects are modelled by oracles (Bool or Except values standing for the outcome
of the external call), and mutable object state by explicit state passing.
-/

/-- JSON values, the ad hoc request/response bodies the scripts build. -/
inductive Json where
  | null : Json
  | bool (b : Bool) : Json
  | num (n : Int) : Json
  | str (s : String) : Json
  | arr (xs : List Json) : Json
  | obj (kvs : List (String × Json)) : Json
deriving Repr

/-! ## Python string-operation models (on `List Char` / `String`) -/

/-- Model of Python whitespace for `str.strip()` (ASCII whitespace; the
scripts never feed non-ASCII whitespace). -/
def pyIsSpace (c : Char) : Bool :=
  c == ' ' || c == '\t' || c == '\n' || c == '\r' ||
  c == Char.ofNat 11 || c == Char.ofNat 12

/-- Python `s.strip()`. -/
def pyStrip (s : String) : String :=
  String.mk (((s.data.dropWhile pyIsSpace).reverse.dropWhile pyIsSpace).reverse)

/-- Python `s.rstrip('/')`: remove all trailing slash characters. -/
def pyRstripSlash (s : String) : String :=
  String.mk ((s.data.reverse.dropWhile (fun c => c == '/')).reverse)

/-- List version of `startswith`. -/
def isPre : List Char → List Char → Bool
  | [], _ => true
  | _, [] => false
  | a :: as, b :: bs => a == b && isPre as bs

/-- Python `s.startswith(p)`. -/
def pyStartsWith (s p : String) : Bool := isPre p.data s.data

/-- Occurrence test for Python `p in s` (substring containment, `p` nonempty
in every use in the source). -/
def containsSub : List Char → List Char → Bool
  | _, [] => false
  | pat, c :: rest => isPre pat (c :: rest) || containsSub pat rest

/-- Python `p in s` for nonempty `p`. -/
def pyContains (s p : String) : Bool := containsSub p.data s.data

/-- Fuel-indexed engine for Python `s.replace(pat, rep)` (all non-overlapping
occurrences, left to right; `pat` is nonempty in every use in the source). -/
def pyReplaceAux (pat rep : List Char) : Nat → List Char → List Char
  | 0, s => s
  | _ + 1, [] => []
  | fuel + 1, c :: rest =>
    if isPre pat (c :: rest) then
      rep ++ pyReplaceAux pat rep fuel ((c :: rest).drop pat.length)
    else
      c :: pyReplaceAux pat rep fuel rest

/-- Python `s.replace(pat, rep)` for nonempty `pat`. -/
def pyReplace (s pat rep : String) : String :=
  String.mk (pyReplaceAux pat.data rep.data s.data.length s.data)

/-! ## Model of `urllib.parse.urlparse` (the fields the source reads:
`scheme`, `netloc`, `hostname`). Modelled total, for URLs free of the
control characters the stdlib strips. -/

/-- The characters CPython allows inside a URL scheme. -/
def schemeChars : List Char :=
  ("abcdefghijklmnopqrstuvwxyzABCDEFGHIJKLMNOPQRSTUVWXYZ0123456789+-.").data

/-- Split off the scheme: CPython takes the text before the first `:` as the
scheme when it is nonempty, begins with an ASCII letter and uses only
scheme characters; the scheme is lowercased. -/
def splitScheme (s : List Char) : List Char × List Char :=
  let pre := s.takeWhile (fun c => c != ':')
  if pre.length == s.length then
    ([], s)
  else if !pre.isEmpty && (pre.headD 'a').isAlpha &&
          pre.all (fun c => schemeChars.contains c) then
    (pre.map Char.toLower, s.drop (pre.length + 1))
  else
    ([], s)

/-- Split off the netloc: the text between a leading `//` and the next
`/`, `?` or `#`. -/
def splitNetloc (s : List Char) : List Char × List Char :=
  match s with
  | '/' :: '/' :: rest =>
    (rest.takeWhile (fun c => c != '/' && c != '?' && c != '#'),
     rest.dropWhile (fun c => c != '/' && c != '?' && c != '#'))
  | _ => ([], s)

/-- CPython `hostname`: drop the userinfo (text up to the last `@`), then take
the bracketed host if present, else the text before the port `:`; lowercase;
`None` when empty. (IPv6 zone identifiers are lowercased too; the scripts
never use them.) -/
def hostnameOfNetloc (netloc : List Char) : Option String :=
  let hostinfo := (netloc.reverse.takeWhile (fun c => c != '@')).reverse
  let host :=
    if hostinfo.contains '[' then
      ((hostinfo.dropWhile (fun c => c != '[')).drop 1).takeWhile (fun c => c != ']')
    else
      hostinfo.takeWhile (fun c => c != ':')
  if host.isEmpty then none else some (String.mk (host.map Char.toLower))

/-- The parsed fields the source reads. -/
structure UrlParts where
  scheme : String
  netloc : String
  hostname : Option String
deriving Repr

def urlparse (url : String) : UrlParts :=
  let (sch, rest) := splitScheme url.data
  let (nl, _) := splitNetloc rest
  { scheme := String.mk sch
    netloc := String.mk nl
    hostname := hostnameOfNetloc nl }

/-! ## ElasticsearchMCPClient._validate_and_normalize_url
(gemma3-elastic-agent/main.py lines 32-60). Exceptions are modelled with
`Except`: `error` is the `ValueError` the method raises. -/

def validate_and_normalize_url (url : String) : Except String String :=
  if url == "" || pyStrip url == "" then
    Except.error "Elasticsearch URL cannot be empty"
  else if (urlparse (pyRstripSlash url)).scheme == "" ||
          (urlparse (pyRstripSlash url)).netloc == "" then
    Except.error "Invalid Elasticsearch URL format: Invalid URL format"
  else
    Except.ok (pyRstripSlash url)

/-! ## ElasticsearchMCPClient.get_session
(gemma3-elastic-agent/main.py lines 62-137). The client object state is the
three constructor fields; the outcome of each subprocess `initialize`
handshake (together with the body run under the yielded session) is an
oracle Bool. -/

/-- The mutable fields of an ElasticsearchMCPClient instance. -/
structure ClientState where
  elastic_url : String
  username : Option String
  password : Option String
deriving Repr

/-- The observable outcome of one `get_session` use: `session` is the
elasticsearch-url the yielded session was opened with (`none` when the
exception propagates), `retried` records whether the HTTP fallback was
attempted, `retryUrl` the URL that fallback used, and `state` the client
state after the call. -/
structure SessionOutcome where
  session : Option String
  retried : Bool
  retryUrl : Option String
  state : ClientState
deriving Repr

/-- The guard at lines 100-103: the stored URL contains `https://` and starts
with `https://` followed by one of the four private-network prefixes. -/
def retryCondition (url : String) : Bool :=
  pyContains url "https://" &&
    (["172.", "192.168.", "10.", "localhost"].any
      (fun p => pyStartsWith url ("https://" ++ p)))

/-- `get_session`: try the stored URL; on an exception anywhere in the first
attempt, when `retryCondition` holds, retry once with every `https://`
occurrence replaced by `http://`, storing that URL into the state only after
the retried session initializes; otherwise re-raise. `firstOk` / `retryOk`
are the oracles for the two attempts. -/
def get_session (c : ClientState) (firstOk retryOk : Bool) : SessionOutcome :=
  if firstOk then
    { session := some c.elastic_url, retried := false, retryUrl := none, state := c }
  else if retryCondition c.elastic_url then
    let http_url := pyReplace c.elastic_url "https://" "http://"
    if retryOk then
      { session := some http_url, retried := true, retryUrl := some http_url,
        state := { c with elastic_url := http_url } }
    else
      { session := none, retried := true, retryUrl := some http_url, state := c }
  else
    { session := none, retried := false, retryUrl := none, state := c }

/-! ## Gemma3ElasticAgent.query (gemma3-elastic-agent/main.py lines 189-209).
`agentReady` says whether `self.agent` is already set; `initResult` is the
oracle for `initialize_agent` (which re-raises its own failures), and
`invokeResult` for `agent.ainvoke`, giving the contents of the result's
`messages` list on success. The method logs and re-raises every failure. -/

def gemma3_query (agentReady : Bool) (initResult : Except String Unit)
    (invokeResult : Except String (List String)) : Except String String :=
  match (if agentReady then Except.ok () else initResult) with
  | Except.error e => Except.error e
  | Except.ok () =>
    match invokeResult with
    | Except.error e => Except.error e
    | Except.ok msgs =>
      match msgs.getLast? with
      | some m => Except.ok m
      | none => Except.error "IndexError: list index out of range"

/-! ## ElasticsearchTool._run (main.py lines 31-71) -/

/-- Python truthiness of an `Optional[str]`: `None` and `""` are falsy. -/
def pyTruthyStr : Option String → Bool
  | none => false
  | some s => s != ""

/-- The string a date variable interpolates into the JSON body (always the
`some` case where the source inserts it). -/
def jsonOfOptStr : Option String → Json
  | none => Json.null
  | some s => Json.str s

/-- `must_clauses`: a `match` on `message`, plus the `@timestamp` range
clause when `start_date and end_date` is truthy. -/
def must_clauses (query : String) (sd ed : Option String) : List Json :=
  let base := [Json.obj [("match", Json.obj [("message", Json.str query)])]]
  if pyTruthyStr sd && pyTruthyStr ed then
    base ++ [Json.obj [("range", Json.obj [("@timestamp",
      Json.obj [("gte", jsonOfOptStr sd), ("lte", jsonOfOptStr ed)])])]]
  else
    base

/-- The search body `{"query": {"bool": {"must": ...}}, "size": 5}`. -/
def run_body (query : String) (sd ed : Option String) : Json :=
  Json.obj [("query", Json.obj [("bool", Json.obj
    [("must", Json.arr (must_clauses query sd ed))])]),
    ("size", Json.num 5)]

/-- An HTTP request as the scripts issue one through `requests`. -/
structure HttpRequest where
  method : String
  url : String
  authUser : Option String
  authPass : Option String
  headers : List (String × String)
  body : Json
  verify : Bool
deriving Repr

/-- The request `ElasticsearchTool._run` issues; `es_url`, `es_index`,
`user`, `pass` stand for the `ES_URL`, `ES_INDEX`, `ES_USERNAME`,
`ES_PASSWORD` environment values read at import. -/
def run_request (es_url es_index : String) (u p : Option String)
    (query : String) (sd ed : Option String) : HttpRequest :=
  { method := "GET"
    url := es_url ++ "/" ++ es_index ++ "/_search"
    authUser := u
    authPass := p
    headers := [("Content-Type", "application/json")]
    body := run_body query sd ed
    verify := false }

/-- Python `str()` of a JSON value, for the `f"{timestamp}: {msg}"` line. -/
def pyStr : Json → String
  | Json.null => "None"
  | Json.bool true => "True"
  | Json.bool false => "False"
  | Json.num n => toString n
  | Json.str s => s
  | Json.arr _ => "<list>"
  | Json.obj _ => "<dict>"

/-- Python `d.get(k, default)`, totalized to return the default on a
non-dict (the source only reaches it on dicts). -/
def jsonGetD (j : Json) (k : String) (d : Json) : Json :=
  match j with
  | Json.obj kvs =>
    match kvs.lookup k with
    | some v => v
    | none => d
  | _ => d

/-- One line of `_run` output for a hit. -/
def hitLine (hit : Json) : String :=
  let src := jsonGetD hit "_source" (Json.obj [])
  let msg := jsonGetD src "message" (Json.str "No message")
  let ts := jsonGetD src "@timestamp" (Json.str "No timestamp")
  pyStr ts ++ ": " ++ pyStr msg

/-- `ElasticsearchTool._run`, with the outcome of `requests.get` plus
`res.json()` as the oracle: the whole body sits in one `try`, so every
exception `e` becomes the return string `"Error: " ++ str(e)` and the
method never raises. On success the hits are formatted one per line. -/
def elasticsearchTool_run (query : String) (sd ed : Option String)
    (httpResult : Except String Json) : String :=
  match httpResult with
  | Except.error e => "Error: " ++ e
  | Except.ok data =>
    let hits :=
      match jsonGetD (jsonGetD data "hits" (Json.obj [])) "hits" (Json.arr []) with
      | Json.arr xs => xs
      | _ => []
    let results := hits.map hitLine
    if results.isEmpty then "No logs found." else String.intercalate "\n" results

/-! ## FastAPI handlers (main.py lines 97-109) -/

/-- Python truthiness of a JSON value (`if not question`). -/
def pyFalsy : Json → Bool
  | Json.null => true
  | Json.bool b => !b
  | Json.num n => n == 0
  | Json.str s => s == ""
  | Json.arr xs => xs.isEmpty
  | Json.obj kvs => kvs.isEmpty

/-- Python `body.get("question")`: first binding in the dict. -/
def dictGet (kvs : List (String × Json)) (k : String) : Option Json :=
  kvs.lookup k

/-- `GET /` handler. -/
def homeHandler : Json :=
  Json.obj [("message", Json.str "LangChain Elasticsearch Tool Agent is running.")]

/-- `POST /query` handler; `agentRun` is the oracle for `agent.run`. -/
def queryHandler (agentRun : Json → String) (body : List (String × Json)) : Json :=
  let question := (dictGet body "question").getD Json.null
  if pyFalsy question then
    Json.obj [("error", Json.str "Missing 'question' in body")]
  else
    Json.obj [("response", Json.str (agentRun question))]

/-! ## mcp/testingmcp.py -/

def testingmcp_url : String :=
  "https://elastic-mcp-route-praveen.apps.ocp4.imss.work/mcp"

def testingmcp_payload : Json :=
  Json.obj [("jsonrpc", Json.str "2.0"),
    ("id", Json.str "1"),
    ("method", Json.str "invoke"),
    ("params", Json.obj [("messages", Json.arr
      [Json.obj [("role", Json.str "user"),
        ("content", Json.str "Show me recent error logs")]])])]

/-- The single `requests.post` the test script performs. -/
def testingmcp_request : HttpRequest :=
  { method := "POST"
    url := testingmcp_url
    authUser := none
    authPass := none
    headers := [("Content-Type", "application/json"),
      ("Accept", "application/json, text/event-stream")]
    body := testingmcp_payload
    verify := false }

/-! ## Claim-side definitions (formalizing the spec wording, for comparison
with the source behavior) -/

/-- Whether `validate_and_normalize_url` raised. -/
def isErr : Except String String → Bool
  | Except.error _ => true
  | Except.ok _ => false

/-- Spec wording for C1: the parsed host matches `10.*`, `172.*`,
`192.168.*` or `localhost`. -/
def claimC1_hostMatches : Option String → Bool
  | none => false
  | some h =>
    pyStartsWith h "10." || pyStartsWith h "172." ||
    pyStartsWith h "192.168." || h == "localhost"

/-- Spec wording for C1: the URL uses the https scheme and its host matches
one of the private-network patterns. -/
def claimC1_cond (url : String) : Bool :=
  (urlparse url).scheme == "https" && claimC1_hostMatches (urlparse url).hostname

/-! ## Theorems -/

/-- C1 (counterexample). The claim ties the HTTP fallback to the parsed
host of the URL, but `get_session` tests a raw string prefix of the URL:
`https://localhostevil.com` is a valid configured URL whose host matches
none of `10.*`, `172.*`, `192.168.*`, `localhost`, yet on a failed first
attempt the client does retry it (over `http://localhostevil.com`),
contradicting "for any other URL no retry is made". -/
theorem C1_counterexample :
    validate_and_normalize_url "https://localhostevil.com" =
      Except.ok "https://localhostevil.com" ∧
    claimC1_cond "https://localhostevil.com" = false ∧
    (get_session (ClientState.mk "https://localhostevil.com" none none)
      false false).retried = true ∧
    (get_session (ClientState.mk "https://localhostevil.com" none none)
      false false).retryUrl = some "http://localhostevil.com" :=
  ⟨rfl, rfl, rfl, rfl⟩

/-- C1 (amended). When the first session attempt fails, the connection is
retried exactly once if and only if the stored URL string starts with
`https://10.`, `https://172.`, `https://192.168.` or `https://localhost`
(a string-prefix test on the URL, not a test of the parsed host); the retry
uses the stored URL with every occurrence of `https://` replaced by
`http://`, a session results only when that retry initializes, and
otherwise the exception propagates with no retry. -/
theorem C1_retry_amended (c : ClientState) (r : Bool) :
    (get_session c false r).retried = retryCondition c.elastic_url ∧
    (get_session c false r).retryUrl =
      (if retryCondition c.elastic_url then
         some (pyReplace c.elastic_url "https://" "http://")
       else none) ∧
    (get_session c false r).session =
      (if retryCondition c.elastic_url && r then
         some (pyReplace c.elastic_url "https://" "http://")
       else none) := by
  cases hc : retryCondition c.elastic_url <;> cases r <;> simp [get_session, hc]

/-- C2. `validate_and_normalize_url` rejects exactly the URLs that are
empty or whitespace-only, or whose parse (after stripping trailing slashes)
has an empty scheme or an empty network-location (host) component; every
other URL is accepted. -/
theorem C2_validate_rejects_iff (url : String) :
    isErr (validate_and_normalize_url url) =
      (pyStrip url == "" ||
        ((urlparse (pyRstripSlash url)).scheme == "" ||
         (urlparse (pyRstripSlash url)).netloc == "")) := by
  by_cases h1 : url = ""
  · subst h1; decide
  · have h1b : (url == "") = false := by
      simp [h1]
    cases h2 : pyStrip url == "" <;>
      cases h3 : ((urlparse (pyRstripSlash url)).scheme == "" ||
          (urlparse (pyRstripSlash url)).netloc == "") <;>
      simp [validate_and_normalize_url, isErr, h1b, h2, h3]

/-- C3. Every URL accepted by `validate_and_normalize_url` is returned with
all trailing `/` characters removed and is otherwise unchanged. -/
theorem C3_normalized_is_rstrip (url s : String)
    (h : validate_and_normalize_url url = Except.ok s) :
    s = pyRstripSlash url := by
  unfold validate_and_normalize_url at h
  split at h
  · exact Except.noConfusion h
  · split at h
    · exact Except.noConfusion h
    · exact (Except.ok.injEq (pyRstripSlash url) s |>.mp h).symm

theorem C3_normalized_is_rstrip_witness :
    "http://abc" = pyRstripSlash "http://abc//" :=
  C3_normalized_is_rstrip "http://abc//" "http://abc" rfl

/-- C4. For every query and optional dates, `ElasticsearchTool._run` issues
a GET to `{ES_URL}/{ES_INDEX}/_search` carrying the configured basic-auth
credentials, with TLS certificate verification disabled, whose JSON body is
exactly the bool query with a `match` on `message` plus, optionally, one
`@timestamp` range clause, and `"size": 5`. -/
theorem C4_search_request (es idx : String) (u p : Option String)
    (q : String) (sd ed : Option String) :
    run_request es idx u p q sd ed =
      HttpRequest.mk "GET" (es ++ "/" ++ idx ++ "/_search") u p
        [("Content-Type", "application/json")]
        (Json.obj [("query", Json.obj [("bool", Json.obj [("must", Json.arr
          ([Json.obj [("match", Json.obj [("message", Json.str q)])]] ++
           (if pyTruthyStr sd && pyTruthyStr ed then
              [Json.obj [("range", Json.obj [("@timestamp", Json.obj
                [("gte", jsonOfOptStr sd), ("lte", jsonOfOptStr ed)])])]]
            else [])))])]), ("size", Json.num 5)])
        false := by
  cases hb : pyTruthyStr sd && pyTruthyStr ed <;>
    simp [run_request, run_body, must_clauses, hb]

/-- C5. A failing external call follows the uniform pattern: the search tool
`_run` wraps its whole body, turns any exception `e` into the return string
`"Error: " ++ str(e)` and (being a total `String`-valued function) never
raises, while `Gemma3ElasticAgent.query` re-raises both agent-initialization
and invocation failures unchanged. -/
theorem C5_uniform_error_pattern (q e : String) (sd ed : Option String)
    (inv : Except String (List String)) :
    elasticsearchTool_run q sd ed (Except.error e) = "Error: " ++ e ∧
    gemma3_query true (Except.ok ()) (Except.error e) = Except.error e ∧
    gemma3_query false (Except.error e) inv = Except.error e :=
  ⟨rfl, rfl, rfl⟩

/-- C6. `GET /` returns the liveness message, and `POST /query` with a body
whose `question` field is a non-empty string runs the agent on that question
and returns `{"response": <agent result>}`. -/
theorem C6_http_endpoints (f : Json → String) (body : List (String × Json))
    (s : String) (h1 : s ≠ "")
    (h2 : dictGet body "question" = some (Json.str s)) :
    homeHandler =
      Json.obj [("message",
        Json.str "LangChain Elasticsearch Tool Agent is running.")] ∧
    queryHandler f body = Json.obj [("response", Json.str (f (Json.str s)))] := by
  refine ⟨rfl, ?_⟩
  simp [queryHandler, h2, pyFalsy, h1]

theorem C6_http_endpoints_witness :
    queryHandler (fun _ => "ok") [("question", Json.str "hi")] =
      Json.obj [("response", Json.str "ok")] :=
  (C6_http_endpoints (fun _ => "ok") [("question", Json.str "hi")] "hi"
    (by decide) rfl).2

/-- C7. The MCP test script posts one JSON-RPC 2.0 envelope with id `"1"`,
method `invoke`, and params holding a single user-role message that carries
the question. -/
theorem C7_jsonrpc_envelope :
    testingmcp_request.method = "POST" ∧
    testingmcp_request.body = testingmcp_payload ∧
    jsonGetD testingmcp_payload "jsonrpc" Json.null = Json.str "2.0" ∧
    jsonGetD testingmcp_payload "id" Json.null = Json.str "1" ∧
    jsonGetD testingmcp_payload "method" Json.null = Json.str "invoke" ∧
    jsonGetD (jsonGetD testingmcp_payload "params" Json.null) "messages"
        Json.null =
      Json.arr [Json.obj [("role", Json.str "user"),
        ("content", Json.str "Show me recent error logs")]] :=
  ⟨rfl, rfl, rfl, rfl, rfl, rfl⟩

/-- C8. The search body carries the `@timestamp` range clause exactly when
both dates are supplied and non-empty; in every other case (including
exactly one date supplied) it is the same body as with no dates at all. -/
theorem C8_range_iff_both_dates (q : String) (sd ed : Option String) :
    run_body q sd ed =
      (if pyTruthyStr sd && pyTruthyStr ed then
         Json.obj [("query", Json.obj [("bool", Json.obj [("must", Json.arr
           [Json.obj [("match", Json.obj [("message", Json.str q)])],
            Json.obj [("range", Json.obj [("@timestamp", Json.obj
              [("gte", jsonOfOptStr sd), ("lte", jsonOfOptStr ed)])])]])])]),
           ("size", Json.num 5)]
       else run_body q none none) := by
  cases sd with
  | none => simp [run_body, must_clauses, pyTruthyStr]
  | some s =>
    cases ed with
    | none => simp [run_body, must_clauses, pyTruthyStr]
    | some t =>
      cases hs : s != "" <;> cases ht : t != "" <;>
        simp [run_body, must_clauses, pyTruthyStr, hs, ht]

/-- C9. When the request body has no `question` binding or its value is
falsy, `POST /query` answers `{"error": "Missing 'question' in body"}` and
the agent oracle is never consulted (the result is the same for every
agent function). -/
theorem C9_missing_question (f g : Json → String)
    (body : List (String × Json))
    (h : pyFalsy ((dictGet body "question").getD Json.null) = true) :
    queryHandler f body =
      Json.obj [("error", Json.str "Missing 'question' in body")] ∧
    queryHandler f body = queryHandler g body := by
  refine ⟨?_, ?_⟩ <;> simp [queryHandler, h]

theorem C9_missing_question_witness :
    queryHandler (fun _ => "a") [] =
      Json.obj [("error", Json.str "Missing 'question' in body")] :=
  (C9_missing_question (fun _ => "a") (fun _ => "b") [] rfl).1

/-- C10. `get_session` changes the client state exactly when the first
attempt fails, the fallback guard holds and the HTTP retry initializes:
then `elastic_url` becomes the rewritten HTTP URL; in every other case,
including a failed HTTP retry, the state is returned unchanged, and the
credentials are never touched. -/
theorem C10_state_mutation (c : ClientState) (f r : Bool) :
    (get_session c f r).state =
      (if !f && retryCondition c.elastic_url && r then
         { c with elastic_url := pyReplace c.elastic_url "https://" "http://" }
       else c) ∧
    (get_session c f r).state.username = c.username ∧
    (get_session c f r).state.password = c.password := by
  cases f <;> cases r <;> cases hc : retryCondition c.elastic_url <;>
    simp [get_session, hc]
